import Mathlib

/-!
Shallow embedding of the persistent key-value state store from
`createPersistantStateStore` (src/unnamed/part_000, the full variant, whose
store/listener/setter/useState/delete code is shared verbatim with the
reduced variant in src/unnamed/part_001).

Modelling conventions:
* JavaScript runtime values stored in `store : Record<string, unknown>` are
  modelled by the inductive `Value`; the JS value `undefined` is
  `Value.undef`, and object identity is modelled by a numeric id.
* `Record<string, T>` objects are modelled as total functions
  `String → Option T`; `none` means "key not in the object" (the JS `in`
  operator returning false), matching the source distinction between
  `stateId in store` and `store[stateId]`.  Raw JS indexing `store[stateId]`
  is `(store k).getD Value.undef` (indexing a missing key yields undefined).
* Listener callbacks are identified by their JS function identity, modelled
  as a `Nat` id; invoking listeners is modelled by returning the list of
  invoked listener ids in invocation order (the callbacks themselves do not
  mutate the store).
* Code that can throw returns `Except`: a thrown JS exception value is
  `Except.error e`.  `setStateBuilder`'s setter returns the post-call state
  together with `Except Value (List Nat)`: on success the list of notified
  listener ids, on a throwing updater the propagated exception (the state
  component is the store as left at the throw point).
-/

namespace PersistantState

/-- JavaScript runtime values as stored in the store.  `undef` is the JS
value `undefined`; `vobj` carries an identity so that two structurally equal
objects of different identity stay distinct, as in JS. -/
inductive Value where
  | undef
  | vnull
  | vbool (b : Bool)
  | vnum (n : Int)
  | vstr (s : String)
  | vobj (id : Nat)
deriving DecidableEq, Repr

/-- Result type of `getStateSnapshot`: either the `NotExists` sentinel
symbol or a stored value, mirroring `(typeof store)[string] | TNotExists`. -/
inductive Snapshot where
  | notExists
  | val (v : Value)
deriving DecidableEq, Repr

/-- The mutable state captured by one `createPersistantStateStore()` call:
`store`, `listeners` and `storeListeners`.  `none` in the two maps means the
key is absent from the underlying JS object. -/
structure StoreState where
  store : String → Option Value
  listeners : String → Option (List Nat)
  storeListeners : List Nat

/-- Pointwise update of a `Record<string, unknown>` model: assignment when
the third argument is `some v`, the `delete` operator when it is `none`. -/
def mapSet (m : String → Option Value) (k : String) (v : Option Value) :
    String → Option Value :=
  fun k2 => if k2 = k then v else m k2

/-- Pointwise update of the listener registry model. -/
def regSet (r : String → Option (List Nat)) (k : String)
    (v : Option (List Nat)) : String → Option (List Nat) :=
  fun k2 => if k2 = k then v else r k2

/-- The fresh state produced by `createPersistantStateStore()`: empty
`store`, empty `listeners`, empty `storeListeners`. -/
def emptyState : StoreState :=
  { store := fun _ => none, listeners := fun _ => none, storeListeners := [] }

/-- `subscribeStore(listener)`: push the listener onto `storeListeners`. -/
def subscribeStore (s : StoreState) (l : Nat) : StoreState :=
  { s with storeListeners := s.storeListeners ++ [l] }

/-- The closure returned by `subscribeStore`: replace `storeListeners` with
the entries whose identity differs from the captured listener. -/
def unsubscribeStore (s : StoreState) (l : Nat) : StoreState :=
  { s with storeListeners := s.storeListeners.filter (fun l2 => l2 != l) }

/-- `subscribeState(stateId, listener)`: create the key with `[]` when it is
absent from `listeners`, then push the listener. -/
def subscribeState (s : StoreState) (k : String) (l : Nat) : StoreState :=
  { s with listeners := regSet s.listeners k (some ((s.listeners k).getD [] ++ [l])) }

/-- The closure returned by `subscribeState`, which runs
`listeners[stateId] = listeners[stateId].filter((l) => l !== listener)`.
When `stateId` is absent from `listeners` (for instance after
`deleteState`), `listeners[stateId]` is `undefined` and `.filter` throws a
TypeError, modelled as `Except.error ()`. -/
def unsubscribeState (s : StoreState) (k : String) (l : Nat) :
    Except Unit StoreState :=
  match s.listeners k with
  | none => .error ()
  | some ls =>
      .ok { s with listeners := regSet s.listeners k (some (ls.filter (fun l2 => l2 != l))) }

/-- `getStateSnapshot(stateId)`: the `NotExists` sentinel when `stateId` is
not a key of `store`, otherwise the stored value unchanged. -/
def getStateSnapshot (s : StoreState) (k : String) : Snapshot :=
  match s.store k with
  | none => .notExists
  | some v => .val v

/-- `notifyState(stateId)`: invoke `(listeners[stateId] ?? [])` in order;
modelled as the list of invoked listener ids.  The state is unchanged and
`storeListeners` is not consulted. -/
def notifyState (s : StoreState) (k : String) : List Nat :=
  (s.listeners k).getD []

/-- The argument accepted by the setter built by `setStateBuilder`: either a
plain value or an updater function (detected in the source by
`typeof valueOrUpdator === "function"`).  An updater may throw, returning
`Except.error` with the thrown value. -/
inductive SetArg where
  | val (v : Value)
  | upd (f : Value → Except Value Value)

/-- One call of the setter returned by `setStateBuilder(stateId)`.  For an
updater the previous value is the raw indexing result `store[stateId]`
(undefined when the key is absent); the assignment and the notification run
only after the updater returns normally, so a throwing updater leaves the
state exactly as it was and notifies nobody. -/
def setState (s : StoreState) (k : String) (a : SetArg) :
    StoreState × Except Value (List Nat) :=
  match a with
  | .val v =>
      let s2 := { s with store := mapSet s.store k (some v) }
      (s2, .ok (notifyState s2 k))
  | .upd f =>
      match f ((s.store k).getD Value.undef) with
      | .error e => (s, .error e)
      | .ok v =>
          let s2 := { s with store := mapSet s.store k (some v) }
          (s2, .ok (notifyState s2 k))

/-- The `defaultValue?: T | (() => T)` parameter of `useState`.  A JS call
site passes a single runtime value: omitting the parameter passes
`undefined`, i.e. `DefaultArg.val Value.undef`; a function default is
`producer`. -/
inductive DefaultArg where
  | val (v : Value)
  | producer (f : Unit → Value)

/-- The guard `defaultValue !== undefined` from `useState`, negated: true
exactly when the runtime default is the JS value `undefined` (a producer is
a function and is never `undefined`). -/
def defaultIsUndefined : DefaultArg → Bool
  | .val .undef => true
  | _ => false

/-- `typeof defaultValue === "function" ? defaultValue() : defaultValue`. -/
def computeDefault : DefaultArg → Value
  | .val v => v
  | .producer f => f ()

/-- One render-time observation of `useState(stateId, defaultValue)`: the
snapshot read followed by the `useMemo` body.  Returns the resulting state,
the listener ids notified during the call, and `afterSnapshot` (the current
value handed to the component).  The subscription side
`(l) => subscribeState(stateId, l)` is performed separately by
`useSyncExternalStore` and is modelled by `subscribeState`; the setter half
of the returned pair is `setState · stateId`. -/
def useState (s : StoreState) (k : String) (d : DefaultArg) :
    StoreState × List Nat × Value :=
  match getStateSnapshot s k with
  | .notExists =>
      if defaultIsUndefined d then (s, [], Value.undef)
      else
        let v := computeDefault d
        let s2 := { s with store := mapSet s.store k (some v) }
        (s2, notifyState s2 k, v)
  | .val v => (s, [], v)

/-- `deleteState(stateId)`: the `delete` operator on both `store` and
`listeners`; total, never throws. -/
def deleteState (s : StoreState) (k : String) : StoreState :=
  { s with store := mapSet s.store k none,
           listeners := regSet s.listeners k none }

/- Helper lemmas. -/

theorem getStateSnapshot_none {s : StoreState} {k : String}
    (h : s.store k = none) : getStateSnapshot s k = .notExists := by
  simp [getStateSnapshot, h]

theorem getStateSnapshot_some {s : StoreState} {k : String} {v : Value}
    (h : s.store k = some v) : getStateSnapshot s k = .val v := by
  simp [getStateSnapshot, h]

/-- C1.  Sentinel separation: when the key is absent from the store the
snapshot is the `notExists` sentinel; when the key is present with any value
(including `undef` or any other falsy value) the snapshot is that value
unchanged and is never the sentinel. -/
theorem sentinel_separation (s : StoreState) (k : String) :
    (s.store k = none → getStateSnapshot s k = .notExists) ∧
    (∀ v : Value, s.store k = some v →
      getStateSnapshot s k = .val v ∧ getStateSnapshot s k ≠ .notExists) := by
  constructor
  · exact getStateSnapshot_none
  · intro v hv
    refine ⟨getStateSnapshot_some hv, ?_⟩
    rw [getStateSnapshot_some hv]
    simp

/-- A concrete store holding exactly `"a" ↦ undefined`, used by witnesses. -/
def oneKeyState : StoreState :=
  { emptyState with store := mapSet emptyState.store "a" (some .undef) }

/-- Closed instance of `sentinel_separation`: on a store holding exactly
`"a" ↦ undefined`, key `"a"` snapshots to its value and key `"b"` to the
sentinel. -/
theorem sentinel_separation_witness :
    (oneKeyState.store "a" = some Value.undef ∧
      getStateSnapshot oneKeyState "a" = .val .undef ∧
      getStateSnapshot oneKeyState "a" ≠ .notExists) ∧
    (oneKeyState.store "b" = none ∧
      getStateSnapshot oneKeyState "b" = .notExists) :=
  ⟨⟨by decide, (sentinel_separation oneKeyState "a").2 .undef (by decide)⟩,
   ⟨by decide, (sentinel_separation oneKeyState "b").1 (by decide)⟩⟩

/-- C4.  Setter semantics: a plain value is stored as given; an updater is
applied to the raw stored value `store[stateId]` (which is `undef` exactly
when the key is absent, and may also be a stored `undef`) and its result is
stored.  Afterwards exactly the listeners registered for `k`, in
registration order, are notified; every notified listener id belongs to
`k`'s registration list, so no listener registered only for another key is
invoked. -/
theorem setState_semantics (s : StoreState) (k : String) (v w : Value)
    (f : Value → Except Value Value)
    (hf : f ((s.store k).getD Value.undef) = .ok w) :
    setState s k (.val v) =
      ({ s with store := mapSet s.store k (some v) },
        .ok ((s.listeners k).getD [])) ∧
    setState s k (.upd f) =
      ({ s with store := mapSet s.store k (some w) },
        .ok ((s.listeners k).getD [])) ∧
    (∀ (k2 : String) (l2 : Nat) (ns : List Nat), k2 ≠ k →
      l2 ∈ (s.listeners k2).getD [] → l2 ∉ (s.listeners k).getD [] →
      (setState s k (.val v)).2 = .ok ns → l2 ∉ ns) := by
  refine ⟨rfl, ?_, ?_⟩
  · simp [setState, hf, notifyState]
  · intro k2 l2 ns _ _ hnot hns
    have : ns = (s.listeners k).getD [] := by
      have h2 : (setState s k (.val v)).2 = .ok ((s.listeners k).getD []) := rfl
      rw [hns] at h2
      exact (Except.ok.injEq _ _).mp h2
    rw [this]
    exact hnot

/-- Store `"a" ↦ undefined` with listener `5` registered on key `"b"`,
used by witnesses. -/
def twoKeyState : StoreState := subscribeState oneKeyState "b" 5

/-- Closed instance of `setState_semantics` on `twoKeyState`: a value write
to `"a"` stores `1`, an updater maps the stored `undefined` to `2`, nobody
is notified for `"a"` (no listener is registered there), and in particular
the listener `5` registered on the other key `"b"` is not invoked. -/
theorem setState_semantics_witness :
    (fun _ => Except.ok (Value.vnum 2) : Value → Except Value Value)
        ((twoKeyState.store "a").getD Value.undef) = .ok (Value.vnum 2) ∧
    ("b" ≠ "a" ∧ 5 ∈ (twoKeyState.listeners "b").getD [] ∧
      5 ∉ (twoKeyState.listeners "a").getD [] ∧
      (setState twoKeyState "a" (.val (.vnum 1))).2 = .ok []) ∧
    setState twoKeyState "a" (.val (.vnum 1)) =
      ({ twoKeyState with store := mapSet twoKeyState.store "a" (some (.vnum 1)) },
        .ok ((twoKeyState.listeners "a").getD [])) ∧
    setState twoKeyState "a" (.upd (fun _ => Except.ok (Value.vnum 2))) =
      ({ twoKeyState with store := mapSet twoKeyState.store "a" (some (.vnum 2)) },
        .ok ((twoKeyState.listeners "a").getD [])) ∧
    (5 : Nat) ∉ ([] : List Nat) :=
  ⟨rfl,
   ⟨by decide, by decide, by decide, rfl⟩,
   (setState_semantics twoKeyState "a" (.vnum 1) (.vnum 2)
      (fun _ => Except.ok (Value.vnum 2)) rfl).1,
   (setState_semantics twoKeyState "a" (.vnum 1) (.vnum 2)
      (fun _ => Except.ok (Value.vnum 2)) rfl).2.1,
   (setState_semantics twoKeyState "a" (.vnum 1) (.vnum 2)
      (fun _ => Except.ok (Value.vnum 2)) rfl).2.2 "b" 5 []
     (by decide) (by decide) (by decide) rfl⟩

/-- C5.  Updater failure atomicity: when the updater throws, the setter call
evaluates to the unchanged prior state paired with the propagated exception:
the key's stored value and presence are exactly as before the call and no
listener of any key receives a notification. -/
theorem setState_updater_throw (s : StoreState) (k : String)
    (f : Value → Except Value Value) (e : Value)
    (hf : f ((s.store k).getD Value.undef) = .error e) :
    setState s k (.upd f) = (s, .error e) := by
  simp [setState, hf]

/-- Closed instance of `setState_updater_throw`: a throwing updater on key
`"a"` of the one-key store leaves the state untouched and propagates the
thrown string. -/
theorem setState_updater_throw_witness :
    (fun _ => Except.error (Value.vstr "boom") : Value → Except Value Value)
        ((oneKeyState.store "a").getD Value.undef) = .error (Value.vstr "boom") ∧
    setState oneKeyState "a" (.upd (fun _ => Except.error (Value.vstr "boom"))) =
      (oneKeyState, .error (Value.vstr "boom")) :=
  ⟨rfl,
   setState_updater_throw oneKeyState "a"
     (fun _ => Except.error (Value.vstr "boom")) (.vstr "boom") rfl⟩

/-- C10.  Updater on an absent key: the updater receives `undef` (the raw
indexing result for a missing key, not the sentinel, which is not even a
storable value) and afterwards the key is present with the updater's
result. -/
theorem setState_updater_absent (s : StoreState) (k : String)
    (f : Value → Except Value Value) (v : Value)
    (h : s.store k = none) (hf : f Value.undef = .ok v) :
    setState s k (.upd f) =
      ({ s with store := mapSet s.store k (some v) },
        .ok ((s.listeners k).getD [])) ∧
    (setState s k (.upd f)).1.store k = some v := by
  have hraw : (s.store k).getD Value.undef = Value.undef := by rw [h]; rfl
  constructor
  · simp [setState, hraw, hf, notifyState]
  · simp [setState, hraw, hf, mapSet]

/-- Closed instance of `setState_updater_absent`: on the empty store, an
updater call on key `"a"` receives `undefined` and materializes the key with
the updater's result `42`. -/
theorem setState_updater_absent_witness :
    emptyState.store "a" = none ∧
    (fun _ => Except.ok (Value.vnum 42) : Value → Except Value Value)
        Value.undef = .ok (Value.vnum 42) ∧
    (setState emptyState "a" (.upd (fun _ => Except.ok (Value.vnum 42))) =
      ({ emptyState with store := mapSet emptyState.store "a" (some (.vnum 42)) },
        .ok ((emptyState.listeners "a").getD [])) ∧
     (setState emptyState "a" (.upd (fun _ => Except.ok (Value.vnum 42)))).1.store "a" =
       some (.vnum 42)) :=
  ⟨rfl, rfl,
   setState_updater_absent emptyState "a"
     (fun _ => Except.ok (Value.vnum 42)) (.vnum 42) rfl rfl⟩

/-- C2.  Default materialization: when the observed snapshot is the sentinel
and the runtime default is not `undefined`, the binding stores the computed
default (producer invoked, literal stored as is), notifies exactly the
key's listeners, and takes the same write path as the setter; when the key
is present with any value, every later observation returns that value with
no write and no notification, whatever default (of whatever identity) is
passed; when the snapshot is the sentinel and the default is `undefined`,
nothing is written and nobody is notified.  So the write-and-notify happens
exactly when the snapshot is the sentinel and a default was supplied. -/
theorem useState_materialization (s : StoreState) (k : String) (d : DefaultArg) :
    (getStateSnapshot s k = .notExists → defaultIsUndefined d = false →
      useState s k d =
        ({ s with store := mapSet s.store k (some (computeDefault d)) },
          (s.listeners k).getD [], computeDefault d) ∧
      (useState s k d).1 = (setState s k (.val (computeDefault d))).1) ∧
    (∀ v : Value, s.store k = some v → ∀ d2 : DefaultArg,
      useState s k d2 = (s, [], v)) ∧
    (getStateSnapshot s k = .notExists → defaultIsUndefined d = true →
      useState s k d = (s, [], Value.undef)) := by
  refine ⟨?_, ?_, ?_⟩
  · intro hsnap hd
    constructor
    · simp [useState, hsnap, hd, notifyState]
    · simp [useState, hsnap, hd, setState]
  · intro v hv d2
    simp [useState, getStateSnapshot_some hv]
  · intro hsnap hd
    simp [useState, hsnap, hd]

/-- Closed instance of `useState_materialization`: on the empty store, a
fresh key `"a"` with producer default materializes `7`; afterwards a second
observation passing a different default object returns `7` with no write
and no notification. -/
theorem useState_materialization_witness :
    getStateSnapshot emptyState "a" = .notExists ∧
    defaultIsUndefined (.producer (fun _ => Value.vnum 7)) = false ∧
    (useState emptyState "a" (.producer (fun _ => Value.vnum 7)) =
      ({ emptyState with
          store := mapSet emptyState.store "a"
            (some (computeDefault (.producer (fun _ => Value.vnum 7)))) },
        (emptyState.listeners "a").getD [],
        computeDefault (.producer (fun _ => Value.vnum 7)))) ∧
    (oneKeyState.store "a" = some Value.undef ∧
      useState oneKeyState "a" (.val (.vobj 99)) = (oneKeyState, [], Value.undef)) :=
  ⟨rfl, rfl,
   ((useState_materialization emptyState "a"
      (.producer (fun _ => Value.vnum 7))).1 rfl rfl).1,
   by decide,
   ((useState_materialization oneKeyState "a" (.val (.vobj 99))).2.1
      Value.undef (by decide) (.val (.vobj 99)))⟩

/-- C6.  No default, no write: on a key absent from the store, calling the
binding with no default (the runtime value `undefined`) returns `undefined`
as the current value, performs no write and no notification, and the key
stays absent, so a subsequent snapshot is still the sentinel. -/
theorem useState_noDefault_noWrite (s : StoreState) (k : String)
    (h : s.store k = none) :
    useState s k (.val .undef) = (s, [], Value.undef) ∧
    (useState s k (.val .undef)).1.store k = none ∧
    getStateSnapshot (useState s k (.val .undef)).1 k = .notExists := by
  have h1 : useState s k (.val .undef) = (s, [], Value.undef) := by
    simp [useState, getStateSnapshot_none h, defaultIsUndefined]
  refine ⟨h1, ?_, ?_⟩
  · rw [h1]; exact h
  · rw [h1]; exact getStateSnapshot_none h

/-- Closed instance of `useState_noDefault_noWrite` on the empty store and
key `"a"`. -/
theorem useState_noDefault_noWrite_witness :
    emptyState.store "a" = none ∧
    (useState emptyState "a" (.val .undef) = (emptyState, [], Value.undef) ∧
      (useState emptyState "a" (.val .undef)).1.store "a" = none ∧
      getStateSnapshot (useState emptyState "a" (.val .undef)).1 "a" = .notExists) :=
  ⟨rfl, useState_noDefault_noWrite emptyState "a" rfl⟩

/-- C9.  Asymmetry of undefined defaults: on an absent key, passing the
literal value `undefined` as the default is the no-default runtime value, so
nothing is written and `undefined` is returned with the key still absent;
passing a producer function that returns `undefined` materializes the key as
present with stored value `undefined` and notifies the key's listeners. -/
theorem useState_undefined_default_asymmetry (s : StoreState) (k : String)
    (f : Unit → Value) (h : s.store k = none) (hf : f () = Value.undef) :
    (useState s k (.val .undef) = (s, [], Value.undef) ∧
      (useState s k (.val .undef)).1.store k = none) ∧
    (useState s k (.producer f) =
      ({ s with store := mapSet s.store k (some Value.undef) },
        (s.listeners k).getD [], Value.undef) ∧
      (useState s k (.producer f)).1.store k = some Value.undef) := by
  have hmat : useState s k (.producer f) =
      ({ s with store := mapSet s.store k (some Value.undef) },
        (s.listeners k).getD [], Value.undef) := by
    simp [useState, getStateSnapshot_none h, defaultIsUndefined, computeDefault,
      hf, notifyState]
  refine ⟨?_, hmat, ?_⟩
  · have h1 : useState s k (.val .undef) = (s, [], Value.undef) := by
      simp [useState, getStateSnapshot_none h, defaultIsUndefined]
    exact ⟨h1, by rw [h1]; exact h⟩
  · rw [hmat]; simp [mapSet]

/-- Closed instance of `useState_undefined_default_asymmetry` on the empty
store and key `"a"`, with the producer `() => undefined`. -/
theorem useState_undefined_default_asymmetry_witness :
    emptyState.store "a" = none ∧
    (fun _ => Value.undef : Unit → Value) () = Value.undef ∧
    ((useState emptyState "a" (.val .undef) = (emptyState, [], Value.undef) ∧
       (useState emptyState "a" (.val .undef)).1.store "a" = none) ∧
     (useState emptyState "a" (.producer (fun _ => Value.undef)) =
        ({ emptyState with store := mapSet emptyState.store "a" (some Value.undef) },
          (emptyState.listeners "a").getD [], Value.undef) ∧
       (useState emptyState "a" (.producer (fun _ => Value.undef))).1.store "a" =
         some Value.undef)) :=
  ⟨rfl, rfl,
   useState_undefined_default_asymmetry emptyState "a" (fun _ => Value.undef) rfl rfl⟩

/-- C7.  Delete clears both and is total: after `deleteState s k` the key is
absent from the store (its snapshot is the sentinel) and absent from the
listener registry; every other key keeps its value and its listeners, and
the whole-store listener list is untouched.  `deleteState` is a total
function (the JS `delete` operator never throws), and on a key absent from
both maps it is a complete no-op, returning the state unchanged. -/
theorem deleteState_clears_both (s : StoreState) (k k2 : String) (h2 : k2 ≠ k) :
    getStateSnapshot (deleteState s k) k = .notExists ∧
    (deleteState s k).store k = none ∧
    (deleteState s k).listeners k = none ∧
    (deleteState s k).store k2 = s.store k2 ∧
    (deleteState s k).listeners k2 = s.listeners k2 ∧
    (deleteState s k).storeListeners = s.storeListeners ∧
    (s.store k = none → s.listeners k = none → deleteState s k = s) := by
  refine ⟨?_, ?_, ?_, ?_, ?_, rfl, ?_⟩
  · simp [getStateSnapshot, deleteState, mapSet]
  · simp [deleteState, mapSet]
  · simp [deleteState, regSet]
  · simp [deleteState, mapSet, h2]
  · simp [deleteState, regSet, h2]
  · intro hs hl
    have e1 : mapSet s.store k none = s.store := by
      funext k3
      by_cases h3 : k3 = k
      · rw [mapSet, if_pos h3, h3, hs]
      · rw [mapSet, if_neg h3]
    have e2 : regSet s.listeners k none = s.listeners := by
      funext k3
      by_cases h3 : k3 = k
      · rw [regSet, if_pos h3, h3, hl]
      · rw [regSet, if_neg h3]
    rw [deleteState, e1, e2]

/-- Closed instance of `deleteState_clears_both`: deleting key `"a"` from
`twoKeyState` clears its store entry while key `"b"` keeps its listener
`[5]`; deleting the absent key `"c"` from the empty state is a no-op. -/
theorem deleteState_clears_both_witness :
    ("b" ≠ "a" : Prop) ∧
    (getStateSnapshot (deleteState twoKeyState "a") "a" = .notExists ∧
      (deleteState twoKeyState "a").store "a" = none ∧
      (deleteState twoKeyState "a").listeners "a" = none ∧
      (deleteState twoKeyState "a").store "b" = twoKeyState.store "b" ∧
      (deleteState twoKeyState "a").listeners "b" = twoKeyState.listeners "b" ∧
      (deleteState twoKeyState "a").storeListeners = twoKeyState.storeListeners) ∧
    (emptyState.store "c" = none ∧ emptyState.listeners "c" = none ∧
      deleteState emptyState "c" = emptyState) :=
  ⟨by decide,
   (let h := deleteState_clears_both twoKeyState "a" "b" (by decide)
    ⟨h.1, h.2.1, h.2.2.1, h.2.2.2.1, h.2.2.2.2.1, h.2.2.2.2.2.1⟩),
   ⟨rfl, rfl,
    (deleteState_clears_both emptyState "c" "b" (by decide)).2.2.2.2.2.2 rfl rfl⟩⟩

/-- C8.  Unsubscribe symmetry: for a key whose listener list exists, the
unsubscribe closure returned by `subscribeState` succeeds and removes
exactly the entries whose identity matches the captured listener, keeping
every other listener with its multiplicity and relative order (the result
is the order-preserving `filter`); the store, the whole-store listeners and
every other key's listener list are untouched.  Running the same closure a
second time succeeds without change: it throws nothing and removes no
further listener. -/
theorem unsubscribe_symmetric (s : StoreState) (k : String) (n : Nat)
    (ls : List Nat) (h : s.listeners k = some ls) :
    ∃ s2 : StoreState,
      unsubscribeState s k n = .ok s2 ∧
      s2.listeners k = some (ls.filter (fun l2 => l2 != n)) ∧
      (∀ k2 : String, k2 ≠ k → s2.listeners k2 = s.listeners k2) ∧
      s2.store = s.store ∧
      s2.storeListeners = s.storeListeners ∧
      (∀ l2 : Nat, l2 ≠ n →
        (ls.filter (fun x => x != n)).count l2 = ls.count l2) ∧
      unsubscribeState s2 k n = .ok s2 := by
  refine ⟨{ s with listeners := regSet s.listeners k (some (ls.filter (fun l2 => l2 != n))) },
    ?_, ?_, ?_, rfl, rfl, ?_, ?_⟩
  · simp [unsubscribeState, h]
  · simp [regSet]
  · intro k2 hk2
    simp [regSet, hk2]
  · intro l2 hl2
    exact List.count_filter (by simpa using hl2)
  · have hk : regSet s.listeners k (some (ls.filter (fun l2 => l2 != n))) k =
        some (ls.filter (fun l2 => l2 != n)) := by simp [regSet]
    have hreg : regSet (regSet s.listeners k (some (ls.filter (fun l2 => l2 != n)))) k
        (some ((ls.filter (fun l2 => l2 != n)).filter (fun l2 => l2 != n))) =
        regSet s.listeners k (some (ls.filter (fun l2 => l2 != n))) := by
      funext k3
      by_cases h3 : k3 = k
      · simp [regSet, h3, List.filter_filter]
      · simp [regSet, h3]
    simp only [unsubscribeState, hk, hreg]

/-- Closed instance of `unsubscribe_symmetric`: with listeners `[1, 2, 1]`
registered on key `"a"`, unsubscribing listener `1` keeps exactly `[2]`,
preserves listener `2`'s count, and a second unsubscribe call succeeds
without removing anything. -/
theorem unsubscribe_symmetric_witness :
    (subscribeState (subscribeState (subscribeState emptyState "a" 1) "a" 2) "a" 1).listeners "a" =
      some [1, 2, 1] ∧
    (∃ s2 : StoreState,
      unsubscribeState
        (subscribeState (subscribeState (subscribeState emptyState "a" 1) "a" 2) "a" 1) "a" 1 = .ok s2 ∧
      s2.listeners "a" = some (([1, 2, 1] : List Nat).filter (fun l2 => l2 != 1)) ∧
      (∀ k2 : String, k2 ≠ "a" →
        s2.listeners k2 =
          (subscribeState (subscribeState (subscribeState emptyState "a" 1) "a" 2) "a" 1).listeners k2) ∧
      s2.store = (subscribeState (subscribeState (subscribeState emptyState "a" 1) "a" 2) "a" 1).store ∧
      s2.storeListeners =
        (subscribeState (subscribeState (subscribeState emptyState "a" 1) "a" 2) "a" 1).storeListeners ∧
      (∀ l2 : Nat, l2 ≠ 1 →
        (([1, 2, 1] : List Nat).filter (fun x => x != 1)).count l2 =
          ([1, 2, 1] : List Nat).count l2) ∧
      unsubscribeState s2 "a" 1 = .ok s2) :=
  ⟨by decide,
   unsubscribe_symmetric
     (subscribeState (subscribeState (subscribeState emptyState "a" 1) "a" 2) "a" 1)
     "a" 1 [1, 2, 1] (by decide)⟩

/-- State with whole-store listener `7` (via `subscribeStore`) and listener
`3` registered on key `"a"` (via `subscribeState`). -/
def storeListenerState : StoreState :=
  subscribeState (subscribeStore emptyState 7) "a" 3

/-- C3.  Evaluation of the setter at the whole-store-notification failing
input: with whole-store listener `7` registered via `subscribeStore` and
listener `3` registered on key `"a"`, the setter call on `"a"` notifies
exactly `[3]` — the whole-store listener `7` is registered but not invoked,
because `notifyState` reads only `listeners[stateId]` and no code path in
the store ever invokes `storeListeners`. -/
theorem setState_skips_storeListeners :
    storeListenerState.storeListeners = [7] ∧
    (setState storeListenerState "a" (.val (.vnum 1))).2 = .ok [3] ∧
    (7 : Nat) ∉ ([3] : List Nat) :=
  ⟨rfl, rfl, by decide⟩

end PersistantState
